import Mathlib

/-!
Shallow embedding of the core of the `rabbit-mq` file-scanner repository:
`DirectoryScanner` (src/directory_scanner.py), `FileInfoExtractor`
(src/file_info_extractor.py) and `RabbitMQClient` (src/rabbitmq_client.py).
Pure logic is translated to executable Lean functions; filesystem and broker
behaviour is supplied as explicit input data (entry lists, outcome fields).
-/

/-! ## Path suffix (Python `pathlib.PurePath.suffix`)

`Path(name).suffix` returns the substring from the last dot of the final
component, provided that dot is neither the first nor the last character;
otherwise the empty string. The scanner and extractor both rely on it. -/

/-- ASCII lower-casing of one character (what Python `str.lower()` does on
the ASCII file names and extensions this system manipulates). -/
def lowerChar (c : Char) : Char :=
  if 65 ≤ c.toNat ∧ c.toNat ≤ 90 then Char.ofNat (c.toNat + 32) else c

/-- ASCII lower-casing of a string (Python `str.lower()`). -/
def lowerStr (s : String) : String :=
  String.mk (s.data.map lowerChar)

/-- Index of the last occurrence of `'.'` in a character list, if any. -/
def lastDotIdx (cs : List Char) : Option Nat :=
  (List.range cs.length).foldl
    (fun acc j => if cs.getD j ' ' = '.' then some j else acc) none

/-- Python `pathlib` suffix of a file name: from the last dot onwards when
`0 < i < len - 1`, else `""`. -/
def pathSuffix (s : String) : String :=
  let cs := s.data
  match lastDotIdx cs with
  | none => ""
  | some i => if 0 < i ∧ i < cs.length - 1 then String.mk (cs.drop i) else ""

/-! ## DirectoryScanner (src/directory_scanner.py) -/

namespace DirectoryScanner

/-- The three statistics counters of `DirectoryScanner`
(`_files_processed`, `_files_failed`, `_files_skipped`). -/
structure Stats where
  processed : Nat
  failed : Nat
  skipped : Nat
deriving DecidableEq, Repr

/-- What happens when `file_callback` is invoked on an entry:
it returns `True`, returns `False`, raises `PermissionError`,
or raises some other exception. -/
inductive CbOutcome
  | ok
  | fail
  | permErr
  | otherErr
deriving DecidableEq, Repr

/-- One directory entry visited by the walk (post-pruning): its final
file name component and the behaviour of the callback on it. -/
structure Entry where
  name : String
  outcome : CbOutcome
deriving DecidableEq, Repr

/-- `_process_entry` normalizes each filter item by prepending a dot when
missing (`ext if ext.startswith('.') else f'.\x7bext\x7d'`). -/
def startsWithDot (s : String) : Bool :=
  match s.data with
  | [] => false
  | c :: _ => c == '.'

/-- The filter-item normalization of `_process_entry`: prepend a dot
when absent, leave the item otherwise untouched (no case folding). -/
def normalizeExts (exts : List String) : List String :=
  exts.map fun ext => if startsWithDot ext then ext else String.mk ('.' :: ext.data)

/-- The extension-filter test of `_process_entry`: with a non-empty filter,
the entry passes iff `entry.suffix.lower()` is a member of the normalized
filter list. An empty filter (Python falsy) passes everything. -/
def passesFilter (exts : List String) (name : String) : Bool :=
  exts.isEmpty || (normalizeExts exts).any fun x => lowerStr (pathSuffix name) = x

/-- `DirectoryScanner._process_entry`: filter check, callback dispatch,
counter increments, and the progress-log check
(`if self._files_processed % self.progress_interval == 0`), which runs
only when the callback returned normally. Returns the updated counters
and whether a progress notification was emitted. -/
def processEntry (interval : Nat) (exts : List String) (s : Stats) (e : Entry) :
    Stats × Bool :=
  if !passesFilter exts e.name then
    ({ s with skipped := s.skipped + 1 }, false)
  else
    match e.outcome with
    | .ok =>
        let s' := { s with processed := s.processed + 1 }
        (s', s'.processed % interval == 0)
    | .fail =>
        let s' := { s with failed := s.failed + 1 }
        (s', s'.processed % interval == 0)
    | .permErr => ({ s with skipped := s.skipped + 1 }, false)
    | .otherErr => ({ s with failed := s.failed + 1 }, false)

/-- Whether the root path exists and is a directory — the two validations that
`scan` performs before touching the counters. -/
inductive RootKind
  | missing
  | notDir
  | dir
deriving DecidableEq, Repr

/-- The two distinct validation errors of `scan`
(`FileNotFoundError` vs `NotADirectoryError`). -/
inductive ScanError
  | fileNotFound
  | notADirectory
deriving DecidableEq, Repr

/-- `DirectoryScanner.scan`: validate the root (raising before the counters
are touched), then reset the three counters to zero and fold
`_process_entry` over the visited entries. The result is the scanner's
statistics state after the call together with the raised error, if any. -/
def scan (interval : Nat) (exts : List String) (root : RootKind)
    (entries : List Entry) (s₀ : Stats) : Stats × Option ScanError :=
  match root with
  | .missing => (s₀, some .fileNotFound)
  | .notDir => (s₀, some .notADirectory)
  | .dir =>
      (entries.foldl (fun s e => (processEntry interval exts s e).1) ⟨0, 0, 0⟩,
       none)

/-- `DirectoryScanner.get_statistics`: a snapshot of the three counters. -/
def get_statistics (s : Stats) : Nat × Nat × Nat :=
  (s.processed, s.failed, s.skipped)

end DirectoryScanner

/-! ## FileInfoExtractor (src/file_info_extractor.py)

`_format_size` repeatedly divides a Python float by `1024.0`. Starting from
an integer byte count `n`, after `k` divisions the float holds exactly
`n / 1024^k` (dividing by a power of two only shifts the exponent), so the
loop value is embedded as the exact pair `(n, k)`, and `f"{v:.2f}"` is the
correctly rounded (ties-to-even) two-decimal rendering of that value. -/

namespace FileInfoExtractor

/-- Decimal digits of a natural number (most significant first). -/
def natDigits (fuel n : Nat) : List Char :=
  match fuel with
  | 0 => []
  | fuel + 1 =>
      if n < 10 then [Char.ofNat (48 + n)]
      else natDigits fuel (n / 10) ++ [Char.ofNat (48 + n % 10)]

/-- Decimal rendering of a natural number. -/
def natToStr (n : Nat) : String :=
  String.mk (natDigits (n + 1) n)

/-- Round `a / b` (with `b > 0`) to the nearest integer, ties to even —
the rounding IEEE-754 formatting applies. -/
def roundHalfEven (a b : Nat) : Nat :=
  let q := a / b
  let r := a % b
  if 2 * r < b then q
  else if b < 2 * r then q + 1
  else if q % 2 = 0 then q else q + 1

/-- Python `f"{v:.2f}"` for the exact non-negative value `v = a / b`:
round to two decimals (ties to even) and print exactly two fractional
digits. -/
def fmt2 (a b : Nat) : String :=
  let c := roundHalfEven (100 * a) b
  natToStr (c / 100) ++ "." ++
    (if c % 100 < 10 then "0" else "") ++ natToStr (c % 100)

/-- The unit ladder of `_format_size` before the `PB` fall-through. -/
def sizeUnits : List String := ["B", "KB", "MB", "GB", "TB"]

/-- The division loop of `_format_size`: the running value is exactly
`n / 1024^k`; while it is not below 1024 and units remain, divide by 1024
once more; falling through the ladder yields `PB`. -/
def formatLoop : Nat → Nat → List String → String
  | n, k, [] => fmt2 n (1024 ^ k) ++ " PB"
  | n, k, u :: us =>
      if n < 1024 ^ (k + 1) then fmt2 n (1024 ^ k) ++ " " ++ u
      else formatLoop n (k + 1) us

/-- `FileInfoExtractor._format_size`: human-readable size with two decimal
digits, dividing by 1024 per unit step. -/
def format_size (n : Nat) : String :=
  formatLoop n 0 sizeUnits

/-- One byte as two lowercase hexadecimal characters. -/
def hexChar (n : Nat) : Char :=
  if n < 10 then Char.ofNat (48 + n) else Char.ofNat (87 + n)

/-- `hashlib`'s `hexdigest()`: each digest byte as two lowercase hex chars. -/
def hexdigest (bs : List Nat) : String :=
  String.mk (bs.flatMap fun b => [hexChar (b / 16 % 16), hexChar (b % 16)])

/-- Whether a character is a lowercase hexadecimal digit. -/
def isLowerHexChar (c : Char) : Bool :=
  "0123456789abcdef".data.contains c

/-- `FileInfoExtractor._compute_hash`: stream the file and return the
SHA-256 hexdigest; if reading raises, return the sentinel string instead.
The SHA-256 digest itself is the 32-byte output of `hashlib.sha256`,
supplied as input data (`digest`). -/
def compute_hash (readOk : Bool) (digest : List Nat) : String :=
  if readOk then hexdigest digest else "error_calculating_hash"

/-- Constructor configuration of `FileInfoExtractor`
(`calculate_hash`, `max_hash_size`). -/
structure Config where
  calculate_hash : Bool
  max_hash_size : Nat
deriving DecidableEq, Repr

/-- One file as the extractor observes it: `stat` data, whether `stat` and
the hashing read succeed, and the SHA-256 digest bytes of its content. -/
structure FileModel where
  name : String
  absPath : String
  size : Nat
  ctime : String
  mtime : String
  atime : String
  is_symlink : Bool
  scanTime : String
  statOk : Bool
  readOk : Bool
  digest : List Nat
deriving DecidableEq, Repr

/-- The record dict built by `FileInfoExtractor.extract`; the optional
`sha256_hash` key is an `Option`. -/
structure FileRecord where
  file_path : String
  file_name : String
  file_extension : String
  file_size_bytes : Nat
  file_size_human : String
  created_time : String
  modified_time : String
  accessed_time : String
  is_symlink : Bool
  scan_timestamp : String
  sha256_hash : Option String
deriving DecidableEq, Repr

/-- `FileInfoExtractor.extract`: on a failed `stat`, `None`; otherwise the
metadata record, with `sha256_hash` added exactly when `calculate_hash`
is set and the size is at most `max_hash_size`. -/
def extract (cfg : Config) (f : FileModel) : Option FileRecord :=
  if f.statOk then
    some
      { file_path := f.absPath
        file_name := f.name
        file_extension := pathSuffix f.name
        file_size_bytes := f.size
        file_size_human := format_size f.size
        created_time := f.ctime
        modified_time := f.mtime
        accessed_time := f.atime
        is_symlink := f.is_symlink
        scan_timestamp := f.scanTime
        sha256_hash :=
          if cfg.calculate_hash && f.size ≤ cfg.max_hash_size then
            some (compute_hash f.readOk f.digest)
          else none }
  else none

end FileInfoExtractor

/-! ## RabbitMQClient (src/rabbitmq_client.py)

Broker and network behaviour is external nondeterminism: each `publish`
call is resolved against an environment that says how the broker reacts
to each attempted operation. -/

namespace RabbitMQClient

/-- The connection-related state of a `RabbitMQClient`: whether the
`connection` and `channel` attributes hold objects, whether the connection
is marked closed, and the running message counter with its configured
health-check interval. -/
structure ClientState where
  hasConnection : Bool
  connClosed : Bool
  hasChannel : Bool
  message_count : Nat
  heartbeat_check_interval : Nat
deriving DecidableEq, Repr

/-- `RabbitMQClient.is_connected`: connection present, not closed, and a
channel present. -/
def is_connected (st : ClientState) : Bool :=
  st.hasConnection && !st.connClosed && st.hasChannel

/-- How the broker reacts to one `basic_publish` attempt: success, the
message comes back unroutable, a connection/channel-level error, or some
other unexpected exception. -/
inductive PublishOutcome
  | ok
  | unroutable
  | connErr
  | otherErr
deriving DecidableEq, Repr

/-- External behaviour during one `publish` call: the outcome of the first
`basic_publish`, whether a `connect()` issued by the periodic health check
would succeed, whether `process_data_events` succeeds, whether the
`connect()` issued after a publish error succeeds, and whether the
post-reconnect retry `basic_publish` succeeds (any exception there is
caught and mapped to failure). -/
structure PublishEnv where
  firstPublish : PublishOutcome
  healthConnectOk : Bool
  processEventsOk : Bool
  reconnectOk : Bool
  retryOk : Bool
deriving DecidableEq, Repr

/-- What one `publish` call did: its return value, how many
`basic_publish` calls it made, how many `connect()` calls the
error-recovery path made, and how many `connect()` calls the periodic
health check made. -/
structure PublishResult where
  success : Bool
  basicPublishCalls : Nat
  errorReconnects : Nat
  healthConnects : Nat
deriving DecidableEq, Repr

/-- `RabbitMQClient._ensure_connection_alive`, reduced to how many
`connect()` calls it performs: none when the connection is present, open
and `process_data_events` succeeds; one otherwise. -/
def ensureConnectionAlive (st : ClientState) (env : PublishEnv) : Nat :=
  if st.hasConnection && !st.connClosed then
    if env.processEventsOk then 0 else 1
  else 1

/-- `RabbitMQClient.publish`: fail fast when no channel object is held;
otherwise bump the message counter, run the periodic health check when the
counter hits the interval, attempt `basic_publish`, and on a
connection/channel-level error reconnect once and retry once. -/
def publish (st : ClientState) (env : PublishEnv) : PublishResult :=
  if !st.hasChannel then
    { success := false, basicPublishCalls := 0, errorReconnects := 0,
      healthConnects := 0 }
  else
    let mc := st.message_count + 1
    let hc :=
      if mc % st.heartbeat_check_interval == 0 then ensureConnectionAlive st env
      else 0
    match env.firstPublish with
    | .ok =>
        { success := true, basicPublishCalls := 1, errorReconnects := 0,
          healthConnects := hc }
    | .unroutable =>
        { success := false, basicPublishCalls := 1, errorReconnects := 0,
          healthConnects := hc }
    | .otherErr =>
        { success := false, basicPublishCalls := 1, errorReconnects := 0,
          healthConnects := hc }
    | .connErr =>
        if env.reconnectOk then
          { success := env.retryOk, basicPublishCalls := 2, errorReconnects := 1,
            healthConnects := hc }
        else
          { success := false, basicPublishCalls := 1, errorReconnects := 1,
            healthConnects := hc }

end RabbitMQClient

/-! ## Theorems about DirectoryScanner -/

namespace DirectoryScanner

/-- Each processed entry bumps exactly one of the three counters by one. -/
theorem processEntry_step (interval : Nat) (exts : List String) (s : Stats)
    (e : Entry) :
    ((processEntry interval exts s e).1.processed = s.processed + 1 ∧
     (processEntry interval exts s e).1.failed = s.failed ∧
     (processEntry interval exts s e).1.skipped = s.skipped) ∨
    ((processEntry interval exts s e).1.processed = s.processed ∧
     (processEntry interval exts s e).1.failed = s.failed + 1 ∧
     (processEntry interval exts s e).1.skipped = s.skipped) ∨
    ((processEntry interval exts s e).1.processed = s.processed ∧
     (processEntry interval exts s e).1.failed = s.failed ∧
     (processEntry interval exts s e).1.skipped = s.skipped + 1) := by
  unfold processEntry
  by_cases hp : passesFilter exts e.name
  · simp only [hp, Bool.not_true, Bool.false_eq_true, if_false]
    cases e.outcome <;> simp
  · simp only [Bool.not_eq_true] at hp
    simp [hp]

/-- One walk step grows the counter total by exactly one. -/
theorem processEntry_total (interval : Nat) (exts : List String) (s : Stats)
    (e : Entry) :
    (processEntry interval exts s e).1.processed +
      (processEntry interval exts s e).1.failed +
      (processEntry interval exts s e).1.skipped =
    s.processed + s.failed + s.skipped + 1 := by
  rcases processEntry_step interval exts s e with ⟨h1, h2, h3⟩ | ⟨h1, h2, h3⟩ | ⟨h1, h2, h3⟩ <;>
    rw [h1, h2, h3] <;> omega

/-- Folding the walk over a list of entries adds the list length to the
counter total. -/
theorem foldl_processEntry_total (interval : Nat) (exts : List String) :
    ∀ (entries : List Entry) (s : Stats),
      (entries.foldl (fun s e => (processEntry interval exts s e).1) s).processed +
        (entries.foldl (fun s e => (processEntry interval exts s e).1) s).failed +
        (entries.foldl (fun s e => (processEntry interval exts s e).1) s).skipped =
      s.processed + s.failed + s.skipped + entries.length := by
  intro entries
  induction entries with
  | nil => intro s; simp
  | cons e rest ih =>
      intro s
      simp only [List.foldl_cons, List.length_cons]
      rw [ih]
      have := processEntry_total interval exts s e
      omega

/-- C2: on an existing directory root, `scan` starts from zeroed counters
(the result does not depend on the counters left by a previous call), every
visited entry bumps exactly one counter by one, and on completion
`processed + failed + skipped` equals the number of visited entries. -/
theorem scan_counters_invariant (interval : Nat) (exts : List String)
    (entries : List Entry) (s₀ : Stats) :
    (scan interval exts .dir entries s₀).2 = none ∧
    (scan interval exts .dir entries s₀).1 =
      entries.foldl (fun s e => (processEntry interval exts s e).1) ⟨0, 0, 0⟩ ∧
    (scan interval exts .dir entries s₀).1.processed +
      (scan interval exts .dir entries s₀).1.failed +
      (scan interval exts .dir entries s₀).1.skipped = entries.length ∧
    (∀ (s : Stats) (e : Entry),
      ((processEntry interval exts s e).1.processed = s.processed + 1 ∧
       (processEntry interval exts s e).1.failed = s.failed ∧
       (processEntry interval exts s e).1.skipped = s.skipped) ∨
      ((processEntry interval exts s e).1.processed = s.processed ∧
       (processEntry interval exts s e).1.failed = s.failed + 1 ∧
       (processEntry interval exts s e).1.skipped = s.skipped) ∨
      ((processEntry interval exts s e).1.processed = s.processed ∧
       (processEntry interval exts s e).1.failed = s.failed ∧
       (processEntry interval exts s e).1.skipped = s.skipped + 1)) := by
  refine ⟨rfl, rfl, ?_, fun s e => processEntry_step interval exts s e⟩
  have h := foldl_processEntry_total interval exts entries ⟨0, 0, 0⟩
  simpa [scan] using h

/-- C10: calling `scan` on a missing root or on a non-directory root raises
the respective distinct error before the counters are reset, leaving the
statistics (and the `get_statistics` snapshot) of the previous scan
untouched. -/
theorem scan_invalid_root_preserves_stats (interval : Nat) (exts : List String)
    (entries : List Entry) (s₀ : Stats) :
    scan interval exts .missing entries s₀ = (s₀, some .fileNotFound) ∧
    scan interval exts .notDir entries s₀ = (s₀, some .notADirectory) ∧
    get_statistics (scan interval exts .missing entries s₀).1 = get_statistics s₀ ∧
    get_statistics (scan interval exts .notDir entries s₀).1 = get_statistics s₀ ∧
    ScanError.fileNotFound ≠ ScanError.notADirectory :=
  ⟨rfl, rfl, rfl, rfl, by decide⟩

end DirectoryScanner

namespace DirectoryScanner

/-- Normalized filter items always carry the leading dot. -/
theorem startsWithDot_normalizeItem (ext : String) :
    startsWithDot (if startsWithDot ext then ext else String.mk ('.' :: ext.data))
      = true := by
  by_cases h : startsWithDot ext = true
  · rw [if_pos h]
    exact h
  · rw [if_neg h]
    rfl

/-- Dot-normalization of the filter list is idempotent. -/
theorem normalizeExts_idem (exts : List String) :
    normalizeExts (normalizeExts exts) = normalizeExts exts := by
  unfold normalizeExts
  rw [List.map_map]
  apply List.map_congr_left
  intro x _
  simp [Function.comp, startsWithDot_normalizeItem x]

/-- C3 counterexample: under the filter `[".TXT"]` the file `A.TXT` is
skipped (the skipped counter is incremented and the callback not invoked),
because filter items are not case-folded. -/
theorem filter_case_counterexample :
    processEntry 100 [".TXT"] ⟨0, 0, 0⟩ ⟨"A.TXT", .ok⟩ = (⟨0, 0, 1⟩, false) ∧
    passesFilter [".TXT"] "A.TXT" = false := by decide

/-- C3 amended: extension matching lower-cases the entry's extension (so
it is case-insensitive in the entry's name) and tolerates filter items
with or without a leading dot, but compares filter items verbatim: `A.TXT`
passes the filter `["txt"]` yet is skipped under `[".TXT"]`. -/
theorem filter_matching (exts : List String) (n₁ n₂ : String)
    (h : lowerStr (pathSuffix n₁) = lowerStr (pathSuffix n₂)) :
    passesFilter exts n₁ = passesFilter exts n₂ ∧
    passesFilter exts n₁ = passesFilter (normalizeExts exts) n₁ ∧
    passesFilter ["txt"] "A.TXT" = true ∧
    passesFilter [".TXT"] "A.TXT" = false := by
  refine ⟨?_, ?_, by decide, by decide⟩
  · unfold passesFilter
    rw [h]
  · cases exts with
    | nil => rfl
    | cons a l =>
        unfold passesFilter
        rw [normalizeExts_idem]
        simp [normalizeExts]

/-- C3 witness: the amended statement applied to `A.TXT` vs `a.txt`. -/
theorem filter_matching_witness :
    passesFilter ["txt"] "A.TXT" = passesFilter ["txt"] "a.txt" :=
  (filter_matching ["txt"] "A.TXT" "a.txt" (by decide)).1

/-- C4 counterexample: an entry whose callback returns `False` as the very
first entry of a walk (processed stays 0, failed becomes 1) emits a
progress notification, since `0 % 100 == 0`. -/
theorem progress_counterexample :
    processEntry 100 [] ⟨0, 0, 0⟩ ⟨"a.txt", .fail⟩ = (⟨0, 1, 0⟩, true) := by decide

/-- C4 amended: a progress notification is emitted exactly when the entry
passed the extension filter, its callback returned normally (incrementing
processed or failed), and the resulting processed counter — possibly 0 or
unchanged — is an exact multiple of the progress interval. -/
theorem progress_emission (interval : Nat) (exts : List String) (s : Stats)
    (e : Entry) :
    (processEntry interval exts s e).2 = true ↔
      (passesFilter exts e.name = true ∧
       (e.outcome = .ok ∨ e.outcome = .fail) ∧
       (processEntry interval exts s e).1.processed % interval = 0) := by
  unfold processEntry
  by_cases hp : passesFilter exts e.name
  · simp only [hp, Bool.not_true, Bool.false_eq_true, if_false]
    cases e.outcome <;> simp [beq_iff_eq]
  · simp only [Bool.not_eq_true] at hp
    simp [hp]

end DirectoryScanner

/-! ## Theorems about FileInfoExtractor -/

namespace FileInfoExtractor

/-- C6: in every record built by `extract`, the `sha256_hash` field is
present exactly when hashing is enabled and the file size is at most the
configured maximum. -/
theorem extract_hash_presence (cfg : Config) (f : FileModel) (r : FileRecord)
    (h : extract cfg f = some r) :
    (r.sha256_hash.isSome ↔
      (cfg.calculate_hash = true ∧ f.size ≤ cfg.max_hash_size)) := by
  unfold extract at h
  split at h
  case isTrue hst =>
    simp only [Option.some.injEq] at h
    subst h
    by_cases hcalc : cfg.calculate_hash = true
    · by_cases hsize : f.size ≤ cfg.max_hash_size
      · simp [hcalc, hsize]
      · simp [hcalc, hsize]
    · simp [hcalc]
  case isFalse hst => simp at h

/-- C6 witness: a zero-byte file with hashing enabled and ceiling 100. -/
theorem extract_hash_presence_witness :
    ((FileRecord.mk "/a.txt" "a.txt" ".txt" 0 "0.00 B" "c" "m" "t" false "s"
        (some "")).sha256_hash.isSome ↔
      (true = true ∧ (0 : Nat) ≤ 100)) :=
  extract_hash_presence ⟨true, 100⟩
    ⟨"a.txt", "/a.txt", 0, "c", "m", "t", false, "s", true, true, []⟩
    (FileRecord.mk "/a.txt" "a.txt" ".txt" 0 "0.00 B" "c" "m" "t" false "s"
      (some "")) (by decide)

/-- A hex character rendered from a nibble is a lowercase hex digit. -/
theorem hexChar_lower_hex : ∀ n, n < 16 → isLowerHexChar (hexChar n) = true := by
  decide

/-- The byte-to-hex expansion doubles the list length. -/
theorem hexPairs_length (bs : List Nat) :
    (bs.flatMap fun b => [hexChar (b / 16 % 16), hexChar (b % 16)]).length
      = 2 * bs.length := by
  induction bs with
  | nil => rfl
  | cons b rest ih =>
      simp only [List.flatMap_cons, List.length_append, List.length_cons,
        List.length_nil, ih, List.length_cons]
      omega

/-- Every character of the byte-to-hex expansion is a lowercase hex digit. -/
theorem hexPairs_all_hex (bs : List Nat) :
    ((bs.flatMap fun b => [hexChar (b / 16 % 16), hexChar (b % 16)]).all
      isLowerHexChar) = true := by
  induction bs with
  | nil => rfl
  | cons b rest ih =>
      simp only [List.flatMap_cons, List.all_append, List.all_cons, List.all_nil,
        ih, Bool.and_true, Bool.and_eq_true]
      exact ⟨hexChar_lower_hex _ (Nat.mod_lt _ (by norm_num)),
             hexChar_lower_hex _ (Nat.mod_lt _ (by norm_num))⟩

/-- C7 counterexample: with hashing enabled and a read failure during
hashing, `extract` stores the sentinel `"error_calculating_hash"`, which is
not a 64-character string. -/
theorem hash_sentinel_counterexample :
    (extract ⟨true, 100⟩
        ⟨"a.txt", "/a.txt", 0, "c", "m", "t", false, "s", true, false, []⟩).map
      (fun r => r.sha256_hash) = some (some "error_calculating_hash") ∧
    "error_calculating_hash".length ≠ 64 := by decide

/-- C7 amended: when the content is read successfully the stored digest is
the 64-character lowercase-hex SHA-256 hexdigest; on a read failure the
non-hex sentinel string `"error_calculating_hash"` is substituted instead
of failing the record. -/
theorem compute_hash_digest_format (bytes : List Nat) (h : bytes.length = 32) :
    (compute_hash true bytes).length = 64 ∧
    ((compute_hash true bytes).data.all isLowerHexChar = true) ∧
    compute_hash false bytes = "error_calculating_hash" := by
  refine ⟨?_, ?_, rfl⟩
  · show (hexdigest bytes).length = 64
    simp only [hexdigest, String.length, hexPairs_length, h]
  · show ((hexdigest bytes).data.all isLowerHexChar = true)
    simp only [hexdigest, hexPairs_all_hex]

/-- C7 witness: the all-zero 32-byte digest. -/
theorem compute_hash_digest_format_witness :
    (compute_hash true (List.replicate 32 0)).length = 64 :=
  (compute_hash_digest_format (List.replicate 32 0) (by decide)).1

/-- C9 counterexample: extracting `A.TXT` stores extension `".TXT"`,
not the lower-cased `".txt"`. -/
theorem extension_not_lowercased :
    (extract ⟨false, 100⟩
        ⟨"A.TXT", "/A.TXT", 0, "c", "m", "t", false, "s", true, true, []⟩).map
      (fun r => r.file_extension) = some ".TXT" ∧ (".TXT" : String) ≠ ".txt" := by
  decide

/-- C9 amended: the record's extension field is the file name's suffix
verbatim — leading separator included but case preserved; `A.TXT` yields
`".TXT"`. -/
theorem extract_extension_verbatim (cfg : Config) (f : FileModel)
    (r : FileRecord) (h : extract cfg f = some r) :
    r.file_extension = pathSuffix f.name ∧
    (f.name = "A.TXT" → r.file_extension = ".TXT") := by
  unfold extract at h
  split at h
  case isTrue hst =>
    simp only [Option.some.injEq] at h
    subst h
    refine ⟨rfl, fun hn => ?_⟩
    show pathSuffix f.name = ".TXT"
    rw [hn]
    decide
  case isFalse hst => simp at h

/-- C9 witness: the amended statement applied to `A.TXT`. -/
theorem extract_extension_verbatim_witness :
    (FileRecord.mk "/A.TXT" "A.TXT" ".TXT" 0 "0.00 B" "c" "m" "t" false "s"
      none).file_extension = pathSuffix "A.TXT" :=
  (extract_extension_verbatim ⟨false, 100⟩
    ⟨"A.TXT", "/A.TXT", 0, "c", "m", "t", false, "s", true, true, []⟩
    (FileRecord.mk "/A.TXT" "A.TXT" ".TXT" 0 "0.00 B" "c" "m" "t" false "s"
      none) (by decide)).1

end FileInfoExtractor

namespace FileInfoExtractor

/-- C8: the human-readable rendering divides by 1024 while the value is at
least 1024, selects the unit at the point the value drops below 1024
(falling through to PB), and prints two decimal digits: 0 → "0.00 B",
1536 → "1.50 KB", 1048576 → "1.00 MB", and each power `1024^N`
(N = 1..5) renders as "1.00" of the next-larger unit; in general the unit
brackets are [1024^k, 1024^(k+1)) with the value rendered as
`n / 1024^k` rounded to two decimals. -/
theorem format_size_spec :
    format_size 0 = "0.00 B" ∧
    format_size 1536 = "1.50 KB" ∧
    format_size 1048576 = "1.00 MB" ∧
    (∀ N, N < 6 → 1 ≤ N →
      format_size (1024 ^ N) = "1.00 " ++ sizeUnits.getD N "PB") ∧
    (∀ n : Nat, n < 1024 → format_size n = fmt2 n 1 ++ " B") ∧
    (∀ n : Nat, 1024 ≤ n → n < 1048576 →
      format_size n = fmt2 n 1024 ++ " KB") ∧
    (∀ n : Nat, 1048576 ≤ n → n < 1073741824 →
      format_size n = fmt2 n 1048576 ++ " MB") ∧
    (∀ n : Nat, 1073741824 ≤ n → n < 1099511627776 →
      format_size n = fmt2 n 1073741824 ++ " GB") ∧
    (∀ n : Nat, 1099511627776 ≤ n → n < 1125899906842624 →
      format_size n = fmt2 n 1099511627776 ++ " TB") ∧
    (∀ n : Nat, 1125899906842624 ≤ n →
      format_size n = fmt2 n 1125899906842624 ++ " PB") := by
  refine ⟨by decide, by decide, by decide, by decide, ?_, ?_, ?_, ?_, ?_, ?_⟩
  · intro n h1
    simp only [format_size, sizeUnits, formatLoop]
    norm_num
    rw [if_pos (by omega)]
    rw [String.append_assoc]
    rfl
  · intro n h1 h2
    simp only [format_size, sizeUnits, formatLoop]
    norm_num
    rw [if_neg (by omega), if_pos (by omega)]
    rw [String.append_assoc]
    rfl
  · intro n h1 h2
    simp only [format_size, sizeUnits, formatLoop]
    norm_num
    rw [if_neg (by omega), if_neg (by omega), if_pos (by omega)]
    rw [String.append_assoc]
    rfl
  · intro n h1 h2
    simp only [format_size, sizeUnits, formatLoop]
    norm_num
    rw [if_neg (by omega), if_neg (by omega), if_neg (by omega),
      if_pos (by omega)]
    rw [String.append_assoc]
    rfl
  · intro n h1 h2
    simp only [format_size, sizeUnits, formatLoop]
    norm_num
    rw [if_neg (by omega), if_neg (by omega), if_neg (by omega),
      if_neg (by omega), if_pos (by omega)]
    rw [String.append_assoc]
    rfl
  · intro n h1
    simp only [format_size, sizeUnits, formatLoop]
    norm_num
    rw [if_neg (by omega), if_neg (by omega), if_neg (by omega),
      if_neg (by omega), if_neg (by omega)]

/-- C8 witness: the bracket statements applied at concrete sizes. -/
theorem format_size_spec_witness :
    format_size 800 = fmt2 800 1 ++ " B" ∧
    format_size 2048 = fmt2 2048 1024 ++ " KB" :=
  ⟨format_size_spec.2.2.2.2.1 800 (by decide),
   format_size_spec.2.2.2.2.2.1 2048 (by decide) (by decide)⟩

end FileInfoExtractor

/-! ## Theorems about RabbitMQClient -/

namespace RabbitMQClient

/-- C1: when a publish attempt hits a connection/channel-level error, the
client reconnects exactly once; if the reconnect succeeds it retries the
publish exactly once (two `basic_publish` calls in total), returning the
retry's outcome, with no further retry loop; if the reconnect fails it
returns failure without retrying. An unroutable message returns failure
after the single publish attempt with no reconnect. -/
theorem publish_retry_policy (st : ClientState) (env : PublishEnv)
    (hch : st.hasChannel = true) :
    (env.firstPublish = .connErr →
      (publish st env).errorReconnects = 1 ∧
      (env.reconnectOk = true →
        (publish st env).basicPublishCalls = 2 ∧
        (publish st env).success = env.retryOk) ∧
      (env.reconnectOk = false →
        (publish st env).basicPublishCalls = 1 ∧
        (publish st env).success = false)) ∧
    (env.firstPublish = .unroutable →
      (publish st env).success = false ∧
      (publish st env).errorReconnects = 0 ∧
      (publish st env).basicPublishCalls = 1) := by
  obtain ⟨fp, hco, peo, rco, ro⟩ := env
  unfold publish
  simp only [hch, Bool.not_true, Bool.false_eq_true, if_false]
  cases fp <;> cases rco <;> simp

/-- C1 witness: a connection error with a successful reconnect and a failed
retry. -/
theorem publish_retry_policy_witness :
    (publish ⟨true, false, true, 0, 100⟩
      ⟨.connErr, true, true, true, false⟩).errorReconnects = 1 :=
  ((publish_retry_policy ⟨true, false, true, 0, 100⟩
    ⟨.connErr, true, true, true, false⟩ rfl).1 rfl).1

/-- C5 counterexample: a state whose connection is marked closed but whose
channel object survives is not Connected (`is_connected` is false), yet
`publish` does not fail fast — it attempts the broker publish and can even
succeed. -/
theorem publish_guard_counterexample :
    is_connected ⟨true, true, true, 0, 100⟩ = false ∧
    publish ⟨true, true, true, 0, 100⟩ ⟨.ok, true, true, true, true⟩
      = ⟨true, 1, 0, 0⟩ := by decide

/-- C5 amended: `publish` fails fast — returning failure with no
`basic_publish` attempt — exactly when the channel attribute is unset
(`if not self.channel`), not whenever `is_connected` is false; channel
absence does imply not-Connected, but a closed or missing connection with
a surviving channel proceeds to the publish attempt. -/
theorem publish_fail_fast_iff (st : ClientState) (env : PublishEnv) :
    (((publish st env).basicPublishCalls = 0 ∧ (publish st env).success = false)
      ↔ st.hasChannel = false) ∧
    (st.hasChannel = false → is_connected st = false) := by
  obtain ⟨fp, hco, peo, rco, ro⟩ := env
  constructor
  · unfold publish
    cases hch : st.hasChannel
    · simp [hch]
    · simp only [hch, Bool.not_true, Bool.false_eq_true, if_false]
      cases fp <;> cases rco <;> simp [hch]
  · intro h
    simp [is_connected, h]

/-- C5 witness: the channel-less state is reported not connected. -/
theorem publish_fail_fast_iff_witness :
    is_connected ⟨false, false, false, 0, 100⟩ = false :=
  (publish_fail_fast_iff ⟨false, false, false, 0, 100⟩
    ⟨.ok, true, true, true, true⟩).2 rfl

end RabbitMQClient
